import Mathlib

/-!
Verification development for the multi-source book-integration pipeline
(`src/integrate_pipeline.py`, `src/utils_isbn.py`, `src/utils_quality.py`).

The pipeline is a single-threaded batch transform over pandas DataFrames.
We embed it shallowly: each DataFrame column cell is modelled by a small
inductive of the Python values that can actually occupy it, and each
pipeline function becomes a pure Lean function over lists of records.

Modelling conventions, used throughout:
* `StrCell` is the value domain of an object-dtype string column: Python
  `None`, float `nan` (what pandas puts in place of a missing value that
  went through a numeric/CSV path), or an actual `str`.
* Python truthiness matters: `None` and `""` are falsy but float `nan` is
  truthy, so `x or ""` keeps a `nan`, and an f-string renders it `"nan"`.
* After `pd.to_datetime(..., errors="coerce")`, the `.dt.year` accessor
  yields an int-dtype column when every date parsed and a float64 column
  (with `nan` for the failures) as soon as one date is missing; an f-string
  renders the same year `"2005"` in the first case and `"2005.0"` in the
  second.  `YearCell` records which of the three shapes a cell has.
* Char-level operations (`strip`, `lower`, `isdigit`, …) are modelled on
  ASCII; the repository's data never exercises the non-ASCII corners of
  the corresponding Python methods.
-/

/-- A cell of an object-dtype pandas column that logically holds a string:
Python `None`, float `nan`, or a `str`. -/
inductive StrCell where
  | none : StrCell
  | nan : StrCell
  | str (s : String) : StrCell
deriving DecidableEq

/-- A cell of the `anio_publicacion` column produced by
`df["fecha_publicacion"].dt.year`:
`na` is the float `nan` of an unparseable/missing date; `intY` is a year in
an all-parsed (integer dtype) column; `floatY` is a year in a column that
also contains missing dates (float64 dtype). -/
inductive YearCell where
  | na : YearCell
  | intY (y : Nat) : YearCell
  | floatY (y : Nat) : YearCell
deriving DecidableEq

/-- The year carried by a `YearCell`, dtype aside (`notna` view). -/
def yearValOf : YearCell → Option Nat
  | .na => Option.none
  | .intY y => some y
  | .floatY y => some y

/-- Python `x or ""` followed by an f-string, as used in
`build_candidate_key`: `None` and `""` are falsy and give `""`; a float
`nan` is truthy and renders as `"nan"`; any other string renders as
itself. -/
def pyOrEmpty : StrCell → String
  | .none => ""
  | .nan => "nan"
  | .str s => s

/-- An f-string rendering without the `or ""` default, as in the
defensive re-build inside `make_book_id` (`row.get('autor_principal','')`
returns the stored value, so `None` renders as `"None"`). -/
def pyFormat : StrCell → String
  | .none => "None"
  | .nan => "nan"
  | .str s => s

/-- f-string rendering of an `anio_publicacion` cell (see `YearCell`):
`nan` renders `"nan"`, an int-dtype year renders bare, a float64 year
renders with a trailing `.0`. -/
def renderYear : YearCell → String
  | .na => "nan"
  | .intY y => toString y
  | .floatY y => toString y ++ ".0"

/-- `.astype("string")` on a cell of an object column whose values are
`None`/`nan`/`str`: missing values become `pd.NA` (here `Option.none`,
and `isinstance(pd.NA, str)` is false), strings stay themselves. -/
def astypeString : StrCell → Option String
  | .none => Option.none
  | .nan => Option.none
  | .str s => some s

/-! ## utils_isbn.py -/

/-- Python `str.strip()` on a character list: drop leading and trailing
whitespace. -/
def pyStripChars (l : List Char) : List Char :=
  ((l.dropWhile Char.isWhitespace).reverse.dropWhile Char.isWhitespace).reverse

/-- `isbn.replace("-", "").strip()`: replacing a single character by the
empty string removes every occurrence, then whitespace is stripped. -/
def isbnCleanChars (s : String) : List Char :=
  pyStripChars (s.data.filter (fun c => c ≠ '-'))

/-- Numeric value of an ASCII digit character (`int(d)`). -/
def digitVal (c : Char) : Nat := c.toNat - 48

/-- Python `str.lower()` on one character (ASCII range; see the header
note on non-ASCII). -/
def pyCharLower (c : Char) : Char :=
  if 65 ≤ c.toNat ∧ c.toNat ≤ 90 then Char.ofNat (c.toNat + 32) else c

/-- Python `str.upper()` on one character (ASCII range). -/
def pyCharUpper (c : Char) : Char :=
  if 97 ≤ c.toNat ∧ c.toNat ≤ 122 then Char.ofNat (c.toNat - 32) else c

/-- Python `str.strip()`. -/
def pyStrip (s : String) : String := ⟨pyStripChars s.data⟩

/-- Python `str.lower()`. -/
def pyLower (s : String) : String := ⟨s.data.map pyCharLower⟩

/-- Python `str.upper()`. -/
def pyUpper (s : String) : String := ⟨s.data.map pyCharUpper⟩

/-- Python `str.split("-")` on a character list (used to parse the digit
date formats accepted by `pd.to_datetime`). -/
def splitOnDash : List Char → List (List Char)
  | [] => [[]]
  | c :: cs =>
      match splitOnDash cs, decide (c = '-') with
      | gs, true => [] :: gs
      | [], false => [[c]]
      | g :: gs, false => (c :: g) :: gs

/-- Python string `<` (and the ascending key order of pandas
`sort_values` on a string column): lexicographic comparison of the code
points. -/
def charListLt : List Char → List Char → Bool
  | [], [] => false
  | [], _ :: _ => true
  | _ :: _, [] => false
  | a :: as, b :: bs => a.toNat < b.toNat || (a.toNat == b.toNat && charListLt as bs)

/-- The `for i, d in enumerate(digits[:12])` accumulation of
`is_valid_isbn13`, carrying the running index `i`. -/
def isbnWeightedSumAux : Nat → List Char → Nat
  | _, [] => 0
  | i, c :: cs =>
      (if i % 2 = 0 then digitVal c else 3 * digitVal c) + isbnWeightedSumAux (i + 1) cs

/-- `is_valid_isbn13` from `utils_isbn.py`.  A non-`str` input (the
`isinstance` guard) is invalid; hyphens are removed and whitespace
stripped; anything that is not then exactly 13 digits is invalid;
otherwise the weighted checksum over the first 12 digits must match the
last digit.  `digits[-1]` is the index-12 digit under the length guard. -/
def is_valid_isbn13 : StrCell → Bool
  | .str s =>
      let digits := isbnCleanChars s
      if digits.length = 13 ∧ digits.all Char.isDigit then
        let total := isbnWeightedSumAux 0 (digits.take 12)
        (10 - total % 10) % 10 == digitVal (digits.getD 12 '0')
      else
        false
  | _ => false

/-- The spec's reference ISBN-13 checksum (§4.1 of the spec, stated from
its words, for comparison with `is_valid_isbn13`): digits at even 0-based
positions of the first 12 weighted 1, odd positions weighted 3, check
digit `(10 - (sum mod 10)) mod 10` equal to the 13th digit. -/
def isbn13CheckDigitOk (cs : List Char) : Prop :=
  (10 - (∑ i ∈ Finset.range 12,
      (if i % 2 = 0 then 1 else 3) * digitVal (cs.getD i ' ')) % 10) % 10
    = digitVal (cs.getD 12 ' ')

instance (cs : List Char) : Decidable (isbn13CheckDigitOk cs) := by
  unfold isbn13CheckDigitOk; infer_instance

/-! ## Normalizer functions of integrate_pipeline.py -/

/-- `simple_normalize_title`: non-strings become `""`, strings are
stripped and lower-cased. -/
def simple_normalize_title : StrCell → String
  | .str s => pyLower (pyStrip s)
  | _ => ""

/-- `normalize_language_bcp47`: non-strings and the empty string give
`None`; otherwise the value is stripped and lower-cased, a 2-character
result expands to `xx-XX`, and anything else is returned as-is (note: a
whitespace-only input strips to `""` and is returned, not nulled). -/
def normalize_language_bcp47 : StrCell → Option String
  | .str s =>
      if s = "" then Option.none
      else
        let lang := pyLower (pyStrip s)
        if lang.length = 2 then some (lang ++ "-" ++ pyUpper lang) else some lang
  | _ => Option.none

/-- `normalize_currency`: non-strings and the empty string give `None`;
otherwise strip and upper-case. -/
def normalize_currency : StrCell → Option String
  | .str s => if s = "" then Option.none else some (pyUpper (pyStrip s))
  | _ => Option.none

/-- Calendar length of a month (for the day-validity check of date
parsing). -/
def daysInMonth (y m : Nat) : Nat :=
  if m = 2 then
    (if (y % 4 = 0 ∧ y % 100 ≠ 0) ∨ y % 400 = 0 then 29 else 28)
  else if m = 4 ∨ m = 6 ∨ m = 9 ∨ m = 11 then 30
  else 31

/-- Whether a calendar day lies in the `datetime64[ns]` range of pandas
timestamps at midnight, `1677-09-22 .. 2262-04-11` (out-of-bounds dates
coerce to `NaT`). -/
def tsInBounds (y m d : Nat) : Bool :=
  (decide (1677 < y) || (y == 1677 && (decide (9 < m) || (m == 9 && decide (22 ≤ d)))))
    &&
  (decide (y < 2262) || (y == 2262 && (decide (m < 4) || (m == 4 && decide (d ≤ 11)))))

/-- Parse a non-empty all-digit character list as a natural number. -/
def parseNatDigits (cs : List Char) : Option Nat :=
  if cs ≠ [] ∧ cs.all Char.isDigit then
    some (cs.foldl (fun a c => 10 * a + digitVal c) 0)
  else
    Option.none

/-- The year produced for one cell by
`pd.to_datetime(..., errors="coerce").dt.year`.

This embeds the library call on the input family the pipeline exercises:
missing values (`None`/`nan`) and digit dates `YYYY`, `YYYY-MM`,
`YYYY-MM-DD` (year exactly 4 digits, month/day 1-2 digits, valid calendar
day, within the `datetime64[ns]` bounds); every other string — in
particular any free text such as a Goodreads `publication_info_raw`
blurb — fails to parse and coerces to `NaT`, i.e. no year.  Exotic
formats that pandas would also accept are outside the modelled domain. -/
def toDatetimeYear : StrCell → Option Nat
  | .str s =>
      match splitOnDash (pyStripChars s.data) with
      | [ys] => do
          let y ← parseNatDigits ys
          if ys.length = 4 ∧ tsInBounds y 1 1 then pure y else failure
      | [ys, ms] => do
          let y ← parseNatDigits ys
          let m ← parseNatDigits ms
          if ys.length = 4 ∧ (ms.length = 1 ∨ ms.length = 2) ∧ 1 ≤ m ∧ m ≤ 12
              ∧ tsInBounds y m 1 then pure y else failure
      | [ys, ms, ds] => do
          let y ← parseNatDigits ys
          let m ← parseNatDigits ms
          let d ← parseNatDigits ds
          if ys.length = 4 ∧ (ms.length = 1 ∨ ms.length = 2) ∧ 1 ≤ m ∧ m ≤ 12
              ∧ (ds.length = 1 ∨ ds.length = 2) ∧ 1 ≤ d ∧ d ≤ daysInMonth y m
              ∧ tsInBounds y m d then pure y else failure
      | _ => Option.none
  | _ => Option.none

/-! ## The common record model (df_all rows) -/

/-- One record of the unioned DataFrame `df_all` after
`normalize_and_add_fields`.  Only the columns some claim depends on are
carried; `precioAmt` is the source's `precio` column (the name avoids a
lexical restriction of this development).  `isbn13` is the object-dtype
cell as it stood when the candidate key was computed (line 201 of the
source, before the `astype("string")` of line 204); downstream consumers
read it through `astypeString`. -/
structure Row where
  source : String
  title : StrCell
  title_normalized : String
  autor_principal : StrCell
  fecha_publicacion_raw : StrCell
  anio_publicacion : YearCell
  idioma : Option String
  moneda : Option String
  isbn13 : StrCell
  precioAmt : Option ℚ
  valid_isbn13 : Bool
  valid_fecha_publicacion : Bool
  valid_idioma : Bool
  valid_moneda : Bool
  book_id_candidato : String
deriving DecidableEq

/-- `build_candidate_key`: if the `isbn13` cell is a `str` with
non-whitespace content the key is that string stripped; otherwise the key
is `f"{title_norm}|{author}|{year}"` where each component went through
`x or ""` (so `None`/`""` render empty but a float `nan` renders `"nan"`,
and a year cell renders per its column dtype — see `renderYear`). -/
def build_candidate_key (r : Row) : String :=
  match r.isbn13 with
  | .str s =>
      if pyStrip s ≠ "" then pyStrip s
      else r.title_normalized ++ "|" ++ pyOrEmpty r.autor_principal ++ "|"
            ++ renderYear r.anio_publicacion
  | _ =>
      r.title_normalized ++ "|" ++ pyOrEmpty r.autor_principal ++ "|"
        ++ renderYear r.anio_publicacion

/-! ## Loading the two sources into the common model -/

/-- A raw Goodreads record (`goodreads_books.json`), restricted to the
fields `load_goodreads` maps into columns that some claim reads. -/
structure RawGoodreads where
  title : StrCell
  authors : StrCell
  publication_info_raw : StrCell
  isbn13 : StrCell
deriving DecidableEq

/-- A raw Google Books record (`googlebooks_books.csv`), restricted to
the fields `load_googlebooks` maps into columns that some claim reads. -/
structure RawGoogle where
  title_gb : StrCell
  authors_gb : StrCell
  published_date_raw : StrCell
  language_raw : StrCell
  isbn13_gb : StrCell
  price_amount : Option ℚ
  price_currency : StrCell
deriving DecidableEq

/-- A pre-normalization row of the common model, as produced by the two
loaders (the `df_common` DataFrames). -/
structure RawCommon where
  source : String
  title : StrCell
  autor_principal : StrCell
  fecha_publicacion_raw : StrCell
  idioma_raw : StrCell
  moneda_raw : StrCell
  isbn13 : StrCell
  precioAmt : Option ℚ
deriving DecidableEq

/-- `load_goodreads` column mapping: Goodreads contributes no language,
price or currency (those columns are set to `None`). -/
def loadGoodreads (g : RawGoodreads) : RawCommon :=
  { source := "goodreads"
    title := g.title
    autor_principal := g.authors
    fecha_publicacion_raw := g.publication_info_raw
    idioma_raw := .none
    moneda_raw := .none
    isbn13 := g.isbn13
    precioAmt := Option.none }

/-- `load_googlebooks` column mapping. -/
def loadGooglebooks (b : RawGoogle) : RawCommon :=
  { source := "google_books"
    title := b.title_gb
    autor_principal := b.authors_gb
    fecha_publicacion_raw := b.published_date_raw
    idioma_raw := b.language_raw
    moneda_raw := b.price_currency
    isbn13 := b.isbn13_gb
    precioAmt := b.price_amount }

/-- `normalize_and_add_fields` on a single record.  `anyNa` says whether
the whole `fecha_publicacion` column contains at least one `NaT`, which
decides the dtype (and hence rendering) of the `.dt.year` column — see
`YearCell`.  The candidate key is computed before the `astype("string")`
of the isbn columns, which is why `Row.isbn13` stays a `StrCell`. -/
def normalizeOne (anyNa : Bool) (c : RawCommon) : Row :=
  let yearOpt := toDatetimeYear c.fecha_publicacion_raw
  let idioma := normalize_language_bcp47 c.idioma_raw
  let moneda := normalize_currency c.moneda_raw
  let r0 : Row :=
    { source := c.source
      title := c.title
      title_normalized := simple_normalize_title c.title
      autor_principal := c.autor_principal
      fecha_publicacion_raw := c.fecha_publicacion_raw
      anio_publicacion :=
        match yearOpt with
        | Option.none => .na
        | some y => if anyNa then .floatY y else .intY y
      idioma := idioma
      moneda := moneda
      isbn13 := c.isbn13
      precioAmt := c.precioAmt
      valid_isbn13 := is_valid_isbn13 c.isbn13
      valid_fecha_publicacion := yearOpt.isSome
      valid_idioma := idioma.isSome
      valid_moneda := moneda.isSome
      book_id_candidato := "" }
  { r0 with book_id_candidato := build_candidate_key r0 }

/-- `normalize_and_add_fields` over the whole unioned DataFrame: the
column-level `to_datetime` fixes the year dtype globally, then every row
is normalized. -/
def normalizeRows (l : List RawCommon) : List Row :=
  let anyNa := l.any (fun c => (toDatetimeYear c.fecha_publicacion_raw).isNone)
  l.map (normalizeOne anyNa)

/-! ## build_dim_book (Survivorship Merger, Policy A) -/

/-- The `source_priority` mapping (`.map(source_priority).fillna(0)`):
google_books 2, goodreads 1, anything else 0. -/
def sourcePriority (s : String) : Nat :=
  if s = "google_books" then 2 else if s = "goodreads" then 1 else 0

/-- The ordering of `sort_values(by=["book_id_candidato",
"source_priority"], ascending=[True, False])`: candidate key ascending,
ties broken by source priority descending. -/
def RowLE (a b : Row) : Prop :=
  charListLt a.book_id_candidato.data b.book_id_candidato.data = true
    ∨ (a.book_id_candidato = b.book_id_candidato
        ∧ sourcePriority b.source ≤ sourcePriority a.source)

instance : DecidableRel RowLE := fun a b =>
  inferInstanceAs (Decidable (_ ∨ _))

theorem charToNat_inj {c d : Char} (h : c.toNat = d.toNat) : c = d := by
  apply Char.ext
  apply UInt32.ext
  simpa [Char.toNat, UInt32.toNat] using h

theorem charListLt_connex : ∀ as bs : List Char,
    charListLt as bs = false → charListLt bs as = false → as = bs
  | [], [], _, _ => rfl
  | [], _ :: _, h, _ => by simp [charListLt] at h
  | _ :: _, [], _, h => by simp [charListLt] at h
  | a :: as, b :: bs, h1, h2 => by
    simp only [charListLt, Bool.or_eq_false_iff, Bool.and_eq_false_iff,
      decide_eq_false_iff_not, beq_eq_false_iff_ne, ne_eq] at h1 h2
    have hab : a.toNat = b.toNat := by omega
    rcases h1.2 with h1' | h1'
    · exact absurd hab h1'
    · rcases h2.2 with h2' | h2'
      · exact absurd hab.symm h2'
      · rw [charToNat_inj hab, charListLt_connex as bs h1' h2']

theorem charListLt_trans : ∀ as bs cs : List Char,
    charListLt as bs = true → charListLt bs cs = true → charListLt as cs = true := by
  intro as bs cs h1 h2
  induction as generalizing bs cs with
  | nil =>
    cases bs with
    | nil => simp [charListLt] at h1
    | cons b bs =>
      cases cs with
      | nil => simp [charListLt] at h2
      | cons c cs => rfl
  | cons a as ih =>
    cases bs with
    | nil => simp [charListLt] at h1
    | cons b bs =>
      cases cs with
      | nil => simp [charListLt] at h2
      | cons c cs =>
        simp only [charListLt, Bool.or_eq_true, Bool.and_eq_true, decide_eq_true_eq,
          beq_iff_eq] at h1 h2 ⊢
        rcases h1 with h1 | ⟨hab, h1⟩
        · rcases h2 with h2 | ⟨hbc, _⟩
          · exact Or.inl (h1.trans h2)
          · exact Or.inl (hbc ▸ h1)
        · rcases h2 with h2 | ⟨hbc, h2⟩
          · exact Or.inl (hab ▸ h2)
          · exact Or.inr ⟨hab.trans hbc, ih bs cs h1 h2⟩

instance : IsTotal Row RowLE where
  total a b := by
    rcases hlt : charListLt a.book_id_candidato.data b.book_id_candidato.data with _ | _
    · rcases hgt : charListLt b.book_id_candidato.data a.book_id_candidato.data with _ | _
      · have hk : a.book_id_candidato = b.book_id_candidato :=
          String.ext (charListLt_connex _ _ hlt hgt)
        rcases Nat.le_total (sourcePriority b.source) (sourcePriority a.source) with hp | hp
        · exact Or.inl (Or.inr ⟨hk, hp⟩)
        · exact Or.inr (Or.inr ⟨hk.symm, hp⟩)
      · exact Or.inr (Or.inl hgt)
    · exact Or.inl (Or.inl hlt)

theorem charListLt_irrefl : ∀ as : List Char, charListLt as as = false
  | [] => rfl
  | a :: as => by simp [charListLt, charListLt_irrefl as]

instance : IsTrans Row RowLE where
  trans a b c hab hbc := by
    rcases hab with h1 | ⟨h1, p1⟩
    · rcases hbc with h2 | ⟨h2, _⟩
      · exact Or.inl (charListLt_trans _ _ _ h1 h2)
      · exact Or.inl (h2 ▸ h1)
    · rcases hbc with h2 | ⟨h2, p2⟩
      · exact Or.inl (h1 ▸ h2)
      · exact Or.inr ⟨h1.trans h2, p2.trans p1⟩

/-- `drop_duplicates(subset=["book_id_candidato"], keep="first")`: walk
the sorted rows keeping the first row of each candidate key; `seen`
accumulates the keys already kept. -/
def dropDupFirst : List Row → List String → List Row
  | [], _ => []
  | r :: rs, seen =>
      if r.book_id_candidato ∈ seen then dropDupFirst rs seen
      else r :: dropDupFirst rs (r.book_id_candidato :: seen)

/-- The winning rows of `build_dim_book`: sort by (key asc, priority
desc) and keep the first row per candidate key.  The sort models
`sort_values` as a sorted permutation; the order among rows tied on both
key and priority is not observable in any property proved here. -/
def dfWinner (l : List Row) : List Row :=
  dropDupFirst (List.insertionSort RowLE l) []

/-- The defensive key re-build inside `make_book_id` (reachable only if
the stored candidate key were empty, which `build_candidate_key` never
produces): `f"{title}|{author}|{year}"` with `.get(col, '')` defaults
that never fire, so `None` renders `"None"`. -/
def rebuildKey (r : Row) : String :=
  r.title_normalized ++ "|" ++ pyFormat r.autor_principal ++ "|"
    ++ renderYear r.anio_publicacion

/-- `make_book_id`.  `h` stands for the
`hashlib.md5(key.encode("utf-8")).hexdigest()[:12]` digest — a fixed pure
function of the key whose internals no claim depends on.  The `isbn13`
cell is read after the `astype("string")` of line 204. -/
def make_book_id (h : String → String) (r : Row) : String :=
  match astypeString r.isbn13 with
  | some s =>
      if pyStrip s ≠ "" then pyStrip s
      else
        let key := r.book_id_candidato
        h (if key = "" then rebuildKey r else key)
  | Option.none =>
      let key := r.book_id_candidato
      h (if key = "" then rebuildKey r else key)

/-- One row of the canonical `dim_book` table (the fields some claim
reads; `ts_ultima_actualizacion` is the wall-clock timestamp column). -/
structure DimRow where
  book_id : String
  titulo : StrCell
  titulo_normalizado : String
  autor_principal : StrCell
  anio_publicacion : YearCell
  idioma : Option String
  isbn13 : Option String
  precioAmt : Option ℚ
  moneda : Option String
  fuente_ganadora : String
  ts_ultima_actualizacion : String
deriving DecidableEq

/-- The `dim` DataFrame row built verbatim from one winning row. -/
def mkDim (h : String → String) (ts : String) (w : Row) : DimRow :=
  { book_id := make_book_id h w
    titulo := w.title
    titulo_normalizado := w.title_normalized
    autor_principal := w.autor_principal
    anio_publicacion := w.anio_publicacion
    idioma := w.idioma
    isbn13 := astypeString w.isbn13
    precioAmt := w.precioAmt
    moneda := w.moneda
    fuente_ganadora := w.source
    ts_ultima_actualizacion := ts }

/-- `build_dim_book`: one canonical row per surviving winner. -/
def build_dim_book (h : String → String) (ts : String) (l : List Row) : List DimRow :=
  (dfWinner l).map (mkDim h ts)

/-- A `DimRow` with the timestamp column blanked, for statements that
compare runs "timestamps aside". -/
def dimEraseTs (d : DimRow) : DimRow :=
  { d with ts_ultima_actualizacion := "" }

/-! ## assert_quality_constraints (Constraint Validator) -/

/-- pandas `notna` on a string-like cell: only an actual string is
non-null (the empty string included). -/
def cellNotNull : StrCell → Bool
  | .str _ => true
  | _ => false

/-- `assert_quality_constraints`: the assert chain of the source, in
source order, reported as the first failing message (the f-string detail
of the messages is elided).  Column reads mirror the source's
column-wise access. -/
def assert_quality_constraints (dim : List DimRow) : Except String Unit :=
  if dim.length = 0 then .error "dim_book esta vacio" else
  if ¬ (dim.map DimRow.book_id).Nodup then .error "book_id no es unico" else
  if mkRat ((dim.filter (fun d => cellNotNull d.titulo)).length : Int) dim.length < mkRat 4 5 then
    .error "menos del 80 por ciento con titulo" else
  if (match (dim.filterMap (fun d => yearValOf d.anio_publicacion)).min? with
      | some m => decide (m < 1800)
      | Option.none => false) then .error "anio de publicacion sospechoso" else
  if (match (dim.filterMap DimRow.precioAmt).min? with
      | some p => decide (p ≤ 0)
      | Option.none => false) then .error "precio no positivo" else
  .ok ()

/-! ## compute_quality_metrics (Quality Reporter, utils_quality.py) -/

/-- Multiplication of a rational by a natural number, written on the
numerator so that it evaluates by kernel reduction (the `Rat`
field operations of the library are deliberately irreducible);
`ratMulNat_eq` identifies it with `q * n`. -/
def ratMulNat (q : ℚ) (n : Nat) : ℚ := mkRat (q.num * n) q.den

/-- Round-half-to-even on a rational, the semantics of Python's
`round(x)` (the float representation error of the source's doubles is
not modelled; it is irrelevant to every bound proved here).  The
fractional part `q - ⌊q⌋ = r / den` is compared with `1/2` by
cross-multiplication, again so that the definition evaluates. -/
def roundHalfEven (q : ℚ) : ℤ :=
  if 2 * (q.num - q.floor * q.den) < (q.den : ℤ) then q.floor
  else if (q.den : ℤ) < 2 * (q.num - q.floor * q.den) then q.floor + 1
  else if q.floor % 2 = 0 then q.floor else q.floor + 1

theorem rat_floor_eq (q : ℚ) : q.floor = ⌊q⌋ :=
  (Rat.floor_def' q).trans Rat.floor_def.symm

/-- Python `round(x, 2)`: `roundHalfEven (x * 100) / 100`. -/
def round2 (q : ℚ) : ℚ := mkRat (roundHalfEven (ratMulNat q 100)) 100

/-- The fraction of rows satisfying a boolean flag, guarded exactly as
the source guards it (`df[col].mean() if total > 0 else 0.0`), so an
empty dataset yields 0 with no division. -/
def flagMean (l : List Row) (flag : Row → Bool) : ℚ :=
  if 0 < l.length then mkRat ((l.filter flag).length : Int) l.length else 0

/-- A per-flag percentage: `round(float(fraction) * 100, 2)`. -/
def flagPct (l : List Row) (flag : Row → Bool) : ℚ :=
  round2 (ratMulNat (flagMean l flag) 100)

/-- The quality-metrics report object. -/
structure Metrics where
  total_registros : Nat
  total_goodreads : Nat
  total_google_books : Nat
  porcentaje_valid_isbn13 : ℚ
  porcentaje_valid_fecha_publicacion : ℚ
  porcentaje_valid_idioma : ℚ
  porcentaje_valid_moneda : ℚ
  claves_candidatas_duplicadas : Nat
deriving DecidableEq

/-- `compute_quality_metrics`: totals, per-source counts, per-flag
percentages, and the number of candidate keys shared by more than one
record (`(value_counts() > 1).sum()`). -/
def compute_quality_metrics (l : List Row) : Metrics :=
  let keys := l.map Row.book_id_candidato
  { total_registros := l.length
    total_goodreads := (l.filter (fun r => r.source == "goodreads")).length
    total_google_books := (l.filter (fun r => r.source == "google_books")).length
    porcentaje_valid_isbn13 := flagPct l Row.valid_isbn13
    porcentaje_valid_fecha_publicacion := flagPct l Row.valid_fecha_publicacion
    porcentaje_valid_idioma := flagPct l Row.valid_idioma
    porcentaje_valid_moneda := flagPct l Row.valid_moneda
    claves_candidatas_duplicadas := (keys.dedup.filter (fun k => 1 < keys.count k)).length }

/-! ## main -/

/-- The four output artifacts a run can write. -/
inductive Artifact where
  | quality_metrics_json : Artifact
  | dim_book_parquet : Artifact
  | book_source_detail_parquet : Artifact
  | schema_md : Artifact
deriving DecidableEq

/-- Observable outcome of a run: which artifacts were written (in write
order), the fatal message if the run aborted, and the produced report and
canonical table. -/
structure RunOut where
  written : List Artifact
  fatal : Option String
  metricsOut : Option Metrics
  dimOut : Option (List DimRow)
deriving DecidableEq

/-- `main` of `integrate_pipeline.py`.  An absent input file is the
loader's `FileNotFoundError` (here `Option.none`).  The quality report is
written before `build_dim_book` and `assert_quality_constraints` run; a
constraint failure therefore aborts with the report already on disk,
while the canonical table, detail table and schema document are only
written after the validator passes. -/
def mainRun (h : String → String) (goodreads : Option (List RawGoodreads))
    (googlebooks : Option (List RawGoogle)) (ts : String) : RunOut :=
  match goodreads with
  | Option.none => ⟨[], some "No se encuentra goodreads_books.json", Option.none, Option.none⟩
  | some gl =>
    match googlebooks with
    | Option.none => ⟨[], some "No se encuentra googlebooks_books.csv", Option.none, Option.none⟩
    | some bl =>
      let dfAll := normalizeRows (gl.map loadGoodreads ++ bl.map loadGooglebooks)
      let metrics := compute_quality_metrics dfAll
      let dim := build_dim_book h ts dfAll
      match assert_quality_constraints dim with
      | .error e => ⟨[.quality_metrics_json], some e, some metrics, Option.none⟩
      | .ok _ =>
          ⟨[.quality_metrics_json, .dim_book_parquet, .book_source_detail_parquet, .schema_md],
            Option.none, some metrics, some dim⟩

/-! ## Helper lemmas -/

theorem dropWhile_eq_self_of_forall {p : Char → Bool} :
    ∀ l : List Char, (∀ c ∈ l, p c = false) → l.dropWhile p = l
  | [], _ => rfl
  | a :: l, h => by
    have ha : p a = false := h a (List.mem_cons_self a l)
    simp [List.dropWhile_cons, ha]

theorem pyStripChars_eq_self {l : List Char} (h : ∀ c ∈ l, c.isWhitespace = false) :
    pyStripChars l = l := by
  unfold pyStripChars
  rw [dropWhile_eq_self_of_forall l h]
  rw [dropWhile_eq_self_of_forall l.reverse (fun c hc => h c (List.mem_reverse.mp hc))]
  exact List.reverse_reverse l

theorem isDigit_not_whitespace {c : Char} (h : c.isDigit = true) :
    c.isWhitespace = false := by
  rcases hw : c.isWhitespace with _ | _
  · rfl
  · exfalso
    have hc : c = ' ' ∨ c = '\t' ∨ c = '\x0d' ∨ c = '\n' := by
      simpa [Char.isWhitespace, or_assoc] using hw
    rcases hc with rfl | rfl | rfl | rfl <;> exact absurd h (by decide)

theorem isDigit_ne_dash {c : Char} (h : c.isDigit = true) : c ≠ '-' := by
  rintro rfl
  simp at h

theorem isbnCleanChars_of_digits {s : String}
    (hdig : s.data.all Char.isDigit = true) : isbnCleanChars s = s.data := by
  have hall := List.all_eq_true.mp hdig
  unfold isbnCleanChars
  rw [List.filter_eq_self.mpr (fun c hc => by
    simpa using isDigit_ne_dash (by simpa using hall c hc))]
  exact pyStripChars_eq_self
    (fun c hc => isDigit_not_whitespace (by simpa using hall c hc))

theorem isbnWeightedSumAux_eq_sum : ∀ (cs : List Char) (i : Nat),
    isbnWeightedSumAux i cs
      = ∑ j ∈ Finset.range cs.length,
          (if (i + j) % 2 = 0 then 1 else 3) * digitVal (cs.getD j ' ')
  | [], i => by simp [isbnWeightedSumAux]
  | c :: cs, i => by
    rw [isbnWeightedSumAux, isbnWeightedSumAux_eq_sum cs (i + 1)]
    rw [List.length_cons, Finset.sum_range_succ']
    simp only [List.getD_cons_succ, List.getD_cons_zero, Nat.add_zero]
    have hw : (if i % 2 = 0 then digitVal c else 3 * digitVal c)
        = (if i % 2 = 0 then 1 else 3) * digitVal c := by
      split <;> ring
    have hsh : ∀ j, (i + (j + 1)) % 2 = ((i + 1) + j) % 2 := by
      intro j; congr 1; omega
    simp only [hsh]
    omega

theorem getD_take : ∀ (l : List Char) (n j : Nat), j < n →
    (l.take n).getD j ' ' = l.getD j ' '
  | [], _, _, _ => by simp
  | a :: l, n + 1, 0, _ => by simp
  | a :: l, n + 1, j + 1, hj => by
    simpa using getD_take l n j (by omega)

/-! ## Claim C4 (corrected): the ISBN-13 validator -/

/-- C4 (amended).  `is_valid_isbn13` agrees with the spec's weighted
checksum on every string of exactly 13 digits; any other input — a
non-string cell, or a string that after removing hyphens and stripping
surrounding whitespace is not exactly 13 digits — is rejected as invalid.
(The claim's "any input that is not exactly 13 digits is rejected" is
amended: hyphens and surrounding whitespace are ignored first, so e.g. a
hyphenated 13-digit ISBN is accepted — see the counterexample.) -/
theorem spec_C4 :
    (∀ s : String, s.data.length = 13 → s.data.all Char.isDigit = true →
      (is_valid_isbn13 (.str s) = true ↔ isbn13CheckDigitOk s.data))
    ∧ (∀ s : String,
        ¬ ((isbnCleanChars s).length = 13 ∧ (isbnCleanChars s).all Char.isDigit = true) →
        is_valid_isbn13 (.str s) = false)
    ∧ is_valid_isbn13 .none = false ∧ is_valid_isbn13 .nan = false := by
  refine ⟨?_, ?_, rfl, rfl⟩
  · intro s hlen hdig
    have hclean : isbnCleanChars s = s.data := isbnCleanChars_of_digits hdig
    have hcond : (isbnCleanChars s).length = 13 ∧ (isbnCleanChars s).all Char.isDigit = true := by
      rw [hclean]; exact ⟨hlen, hdig⟩
    have htake : (s.data.take 12).length = 12 := by
      rw [List.length_take]; omega
    have hsum : isbnWeightedSumAux 0 (s.data.take 12)
        = ∑ i ∈ Finset.range 12,
            (if i % 2 = 0 then 1 else 3) * digitVal (s.data.getD i ' ') := by
      rw [isbnWeightedSumAux_eq_sum, htake]
      refine Finset.sum_congr rfl (fun j hj => ?_)
      rw [Nat.zero_add, getD_take s.data 12 j (Finset.mem_range.mp hj)]
    have hgetD : s.data.getD 12 '0' = s.data.getD 12 ' ' := by
      have h12 : 12 < s.data.length := by omega
      rw [List.getD_eq_getElem?_getD, List.getD_eq_getElem?_getD,
        List.getElem?_eq_getElem h12]
      rfl
    simp only [is_valid_isbn13, hclean, hsum, hgetD, isbn13CheckDigitOk]
    rw [if_pos (And.intro hlen hdig)]
    exact beq_iff_eq
  · intro s hcond
    simp only [is_valid_isbn13]
    rw [if_neg]
    intro hc
    exact hcond ⟨hc.1, hc.2⟩

/-- C4 witness: the spec's own example `"9780306406157"` instantiates the
13-digit branch of `spec_C4`, and the checksum indeed accepts it. -/
theorem spec_C4_witness :
    ("9780306406157".data.length = 13 ∧ "9780306406157".data.all Char.isDigit = true)
    ∧ (is_valid_isbn13 (.str "9780306406157") = true ↔ isbn13CheckDigitOk "9780306406157".data)
    ∧ is_valid_isbn13 (.str "9780306406157") = true
    ∧ is_valid_isbn13 (.str "9780306406158") = false :=
  ⟨by decide, spec_C4.1 "9780306406157" (by decide) (by decide), by decide, by decide⟩

/-- C4 counterexample: `"978-0306406157"` is not a 13-digit string (it
has 14 characters, one of them a hyphen), yet `is_valid_isbn13` accepts
it — the claim's "any input that is not exactly 13 digits is rejected as
invalid" is false of the code, whose docstring says hyphens are
ignored. -/
theorem spec_C4_cex :
    is_valid_isbn13 (.str "978-0306406157") = true
    ∧ "978-0306406157".data.length = 14
    ∧ ("978-0306406157".data.all Char.isDigit) = false := by
  refine ⟨by decide, by decide, by decide⟩

/-! ## Claim C7 (corrected): language normalization -/

/-- C7 (amended).  `normalize_language_bcp47` trims and lower-cases; a
2-character trimmed result expands to `xx-XX`; non-string input and the
empty string yield null.  But any OTHER non-empty string is returned
trimmed and lower-cased as-is, not nulled (a whitespace-only string thus
yields `some ""`). -/
theorem spec_C7 :
    normalize_language_bcp47 .none = Option.none
    ∧ normalize_language_bcp47 .nan = Option.none
    ∧ normalize_language_bcp47 (.str "") = Option.none
    ∧ (∀ s : String, s ≠ "" →
        normalize_language_bcp47 (.str s)
          = some (if (pyLower (pyStrip s)).length = 2
              then pyLower (pyStrip s) ++ "-" ++ pyUpper (pyLower (pyStrip s))
              else pyLower (pyStrip s))) := by
  refine ⟨rfl, rfl, rfl, fun s hs => ?_⟩
  simp only [normalize_language_bcp47, if_neg hs]
  split <;> rfl

/-- C7 witness: the 2-character branch on `" EN "` (trimmed, lower-cased,
expanded to a tag) through `spec_C7`. -/
theorem spec_C7_witness :
    (" EN " ≠ "") ∧ normalize_language_bcp47 (.str " EN ")
      = some (if (pyLower (pyStrip " EN ")).length = 2
          then pyLower (pyStrip " EN ") ++ "-" ++ pyUpper (pyLower (pyStrip " EN "))
          else pyLower (pyStrip " EN "))
    ∧ normalize_language_bcp47 (.str " EN ") = some "en-EN" :=
  ⟨by decide, spec_C7.2.2.2 " EN " (by decide), by decide⟩

/-- C7 counterexample: the 3-character input `"eng"` is neither empty nor
2 characters, and the code returns `some "eng"`, not the null the claim
requires for "any other input". -/
theorem spec_C7_cex :
    normalize_language_bcp47 (.str "eng") = some "eng"
    ∧ some "eng" ≠ (Option.none : Option String) := by
  exact ⟨by decide, by decide⟩

/-! ## Claim C6 (corrected): publication-year extraction -/

/-- C6 (amended).  The publication year of every normalized record is
exactly the result of whole-string date parsing
(`pd.to_datetime(errors="coerce").dt.year`) of its raw publication
string; missing or unparseable input yields an absent year rather than an
error (the function is total).  There is NO first-4-digit-run fallback —
see the counterexample. -/
theorem spec_C6 : ∀ l : List RawCommon,
    (normalizeRows l).map (fun r => yearValOf r.anio_publicacion)
      = l.map (fun c => toDatetimeYear c.fecha_publicacion_raw)
    ∧ toDatetimeYear .none = Option.none
    ∧ toDatetimeYear .nan = Option.none := by
  intro l
  refine ⟨?_, rfl, rfl⟩
  unfold normalizeRows
  rw [List.map_map]
  refine List.map_congr_left (fun c _ => ?_)
  simp only [Function.comp, normalizeOne]
  rcases toDatetimeYear c.fecha_publicacion_raw with _ | y
  · rfl
  · dsimp only
    by_cases hna :
        (l.any fun c0 => (toDatetimeYear c0.fecha_publicacion_raw).isNone) = true
    · rw [if_pos hna]; rfl
    · rw [if_neg hna]; rfl

/-- A Goodreads-style common-model record whose free-text publication
string contains a 4-digit year but is not a parseable date. -/
def c6CexRaw : RawCommon :=
  { source := "goodreads"
    title := .str "x"
    autor_principal := .none
    fecha_publicacion_raw := .str "First published 2004"
    idioma_raw := .none
    moneda_raw := .none
    isbn13 := .none
    precioAmt := Option.none }

/-- C6 counterexample: a record whose raw publication string is the free
text `"First published 2004"` — which contains the 4-digit run `"2004"` —
gets NO publication year: the claimed first-4-digit-run extraction does
not exist in the code (`pd.to_datetime` coerces the free text to `NaT`). -/
theorem spec_C6_cex :
    (normalizeRows [c6CexRaw]).map (fun r => yearValOf r.anio_publicacion)
      = [Option.none]
    ∧ "First published 2004" = "First published " ++ "2004"
    ∧ toDatetimeYear (.str "2004") = some 2004 := by
  exact ⟨by decide, by decide, by decide⟩

/-! ## Claim C3 (corrected): the candidate key -/

/-- The first branch of `build_candidate_key`: the stripped `isbn13`
string, when the cell holds a string with non-whitespace content. -/
def isbnBranch (r : Row) : Option String :=
  match r.isbn13 with
  | .str s => if pyStrip s ≠ "" then some (pyStrip s) else Option.none
  | _ => Option.none

theorem build_candidate_key_eq (r : Row) :
    build_candidate_key r
      = match isbnBranch r with
        | some k => k
        | Option.none =>
            r.title_normalized ++ "|" ++ pyOrEmpty r.autor_principal ++ "|"
              ++ renderYear r.anio_publicacion := by
  unfold build_candidate_key isbnBranch
  cases r.isbn13 with
  | str s => by_cases hs : pyStrip s ≠ "" <;> simp [hs]
  | none => rfl
  | nan => rfl

/-- C3 (amended).  The candidate key follows the two-branch policy: if
the `isbn13` cell is a string with non-whitespace content the key is that
string stripped; otherwise the key is title, author and year joined by
pipes.  But an absent component is rendered as the empty string only when
it is Python `None` or `""`; a missing author that arrives as float `nan`
renders `"nan"`, and a missing year always renders `"nan"` (the pandas
year column holds float `nan`, which is truthy, so the `or ""` default
never fires) — so records missing both ISBN and title/author/year
collapse to one group only when their absent components have the same
representation, under a key like `"||nan"` rather than `"||"`. -/
theorem spec_C3 : ∀ r : Row,
    (∀ k, isbnBranch r = some k → build_candidate_key r = k)
    ∧ (isbnBranch r = Option.none →
        build_candidate_key r
          = r.title_normalized ++ "|" ++ pyOrEmpty r.autor_principal ++ "|"
              ++ renderYear r.anio_publicacion)
    ∧ (pyOrEmpty .none = "" ∧ pyOrEmpty (.str "") = "" ∧ renderYear .na = "nan")
    ∧ (∀ r2 : Row, isbnBranch r = Option.none → isbnBranch r2 = Option.none →
        r.title_normalized = r2.title_normalized →
        pyOrEmpty r.autor_principal = pyOrEmpty r2.autor_principal →
        renderYear r.anio_publicacion = renderYear r2.anio_publicacion →
        build_candidate_key r = build_candidate_key r2) := by
  intro r
  refine ⟨?_, ?_, ⟨rfl, rfl, rfl⟩, ?_⟩
  · intro k hk
    rw [build_candidate_key_eq, hk]
  · intro hk
    rw [build_candidate_key_eq, hk]
  · intro r2 hk hk2 ht ha hy
    rw [build_candidate_key_eq, hk, build_candidate_key_eq, hk2, ht, ha, hy]

/-- A record carrying a whitespace-padded ISBN-13 string. -/
def c3WitRaw : RawCommon :=
  { source := "goodreads"
    title := .str "Deep Work"
    autor_principal := .str "Cal Newport"
    fecha_publicacion_raw := .none
    idioma_raw := .none
    moneda_raw := .none
    isbn13 := .str " 9781455586691 "
    precioAmt := Option.none }

/-- C3 witness: the ISBN branch of `spec_C3` at a concrete record. -/
theorem spec_C3_witness :
    (isbnBranch (normalizeOne true c3WitRaw) = some "9781455586691")
    ∧ build_candidate_key (normalizeOne true c3WitRaw) = "9781455586691" :=
  ⟨by decide, (spec_C3 (normalizeOne true c3WitRaw)).1 "9781455586691" (by decide)⟩

/-- A record with every key component absent as Python `None`
(a Goodreads row loaded from JSON). -/
def c3CexRawA : RawCommon :=
  { source := "goodreads"
    title := .none
    autor_principal := .none
    fecha_publicacion_raw := .none
    idioma_raw := .none
    moneda_raw := .none
    isbn13 := .none
    precioAmt := Option.none }

/-- A record with every key component absent as float `nan` (a Google
Books row whose empty CSV cells read back as `nan`). -/
def c3CexRawB : RawCommon :=
  { source := "google_books"
    title := .nan
    autor_principal := .nan
    fecha_publicacion_raw := .nan
    idioma_raw := .nan
    moneda_raw := .nan
    isbn13 := .nan
    precioAmt := Option.none }

/-- C3 counterexample: two records missing both ISBN and
title/author/year do NOT get the claimed all-empty key `"||"`, and do not
even collapse into one group — the `None`-shaped record keys to `"||nan"`
(the missing year renders `"nan"`) while the `nan`-shaped record keys to
`"|nan|nan"`. -/
theorem spec_C3_cex :
    (normalizeRows [c3CexRawA, c3CexRawB]).map Row.book_id_candidato
      = ["||nan", "|nan|nan"]
    ∧ ("||nan" : String) ≠ "||"
    ∧ ("||nan" : String) ≠ "|nan|nan" := by
  exact ⟨by decide, by decide, by decide⟩

/-! ## Claim C10 (confirmed): invalid ISBNs still key and identify -/

/-- C10.  For every record whose `isbn13` cell is a string with
non-whitespace content, the candidate key and the winner's `book_id` are
both that stripped string — with no hypothesis on `is_valid_isbn13`: the
validity flag never influences grouping or `book_id` derivation (the
witness instantiates this with a checksum-invalid ISBN). -/
theorem spec_C10 : ∀ (anyNa : Bool) (c : RawCommon) (s : String) (h : String → String),
    c.isbn13 = .str s → pyStrip s ≠ "" →
    (normalizeOne anyNa c).book_id_candidato = pyStrip s
    ∧ make_book_id h (normalizeOne anyNa c) = pyStrip s := by
  intro anyNa c s h hcell hs
  constructor
  · show build_candidate_key _ = _
    unfold build_candidate_key
    simp only [normalizeOne, hcell]
    rw [if_pos hs]
  · unfold make_book_id
    simp only [normalizeOne, hcell, astypeString]
    rw [if_pos hs]

/-- A record carrying the 13-digit string `"1234567890123"`, which fails
the ISBN-13 checksum. -/
def c10WitRaw : RawCommon :=
  { source := "google_books"
    title := .str "t"
    autor_principal := .none
    fecha_publicacion_raw := .none
    idioma_raw := .none
    moneda_raw := .none
    isbn13 := .str "1234567890123"
    precioAmt := Option.none }

/-- C10 witness: `spec_C10` at a checksum-invalid ISBN — the key and the
`book_id` are still the ISBN string even though `is_valid_isbn13` is
false on it. -/
theorem spec_C10_witness :
    (c10WitRaw.isbn13 = .str "1234567890123" ∧ pyStrip "1234567890123" ≠ "")
    ∧ ((normalizeOne true c10WitRaw).book_id_candidato = pyStrip "1234567890123"
        ∧ make_book_id (fun _ => "") (normalizeOne true c10WitRaw) = pyStrip "1234567890123")
    ∧ is_valid_isbn13 (.str "1234567890123") = false :=
  ⟨⟨rfl, by decide⟩,
    spec_C10 true c10WitRaw "1234567890123" (fun _ => "") rfl (by decide),
    by decide⟩

/-! ## Claim C5 (confirmed): the Constraint Validator -/

/-- Check 1: the canonical table is non-empty. -/
def dimNonEmptyOk (dim : List DimRow) : Prop := 0 < dim.length

/-- Check 2: `book_id` values are pairwise unique. -/
def bookIdUniqueOk (dim : List DimRow) : Prop := (dim.map DimRow.book_id).Nodup

/-- Check 3: the fraction of rows with non-null title is at least 0.80. -/
def titleFracOk (dim : List DimRow) : Prop :=
  mkRat 4 5 ≤ mkRat ((dim.filter (fun d => cellNotNull d.titulo)).length : Int) dim.length

/-- Check 4: if any publication year is present, the minimum is ≥ 1800. -/
def yearMinOk (dim : List DimRow) : Prop :=
  ∀ m, (dim.filterMap (fun d => yearValOf d.anio_publicacion)).min? = some m → 1800 ≤ m

/-- Check 5: if any price is present, the minimum is strictly positive. -/
def priceMinOk (dim : List DimRow) : Prop :=
  ∀ p, (dim.filterMap DimRow.precioAmt).min? = some p → 0 < p

/-- C5.  `assert_quality_constraints` passes iff the five invariants all
hold; it aborts at the FIRST failing check in source order (each error
message certifies that every earlier check passed and its own check
failed); and every table that passes has pairwise-distinct `book_id`
values. -/
theorem spec_C5 : ∀ dim : List DimRow,
    (assert_quality_constraints dim = .ok ()
      ↔ dimNonEmptyOk dim ∧ bookIdUniqueOk dim ∧ titleFracOk dim
          ∧ yearMinOk dim ∧ priceMinOk dim)
    ∧ (∀ e, assert_quality_constraints dim = .error e →
        (e = "dim_book esta vacio" ∧ ¬ dimNonEmptyOk dim)
        ∨ (e = "book_id no es unico" ∧ dimNonEmptyOk dim ∧ ¬ bookIdUniqueOk dim)
        ∨ (e = "menos del 80 por ciento con titulo" ∧ dimNonEmptyOk dim
            ∧ bookIdUniqueOk dim ∧ ¬ titleFracOk dim)
        ∨ (e = "anio de publicacion sospechoso" ∧ dimNonEmptyOk dim
            ∧ bookIdUniqueOk dim ∧ titleFracOk dim ∧ ¬ yearMinOk dim)
        ∨ (e = "precio no positivo" ∧ dimNonEmptyOk dim ∧ bookIdUniqueOk dim
            ∧ titleFracOk dim ∧ yearMinOk dim ∧ ¬ priceMinOk dim))
    ∧ (assert_quality_constraints dim = .ok () → (dim.map DimRow.book_id).Nodup) := by
  intro dim
  have hyear : ∀ b : Bool,
      (match (dim.filterMap (fun d => yearValOf d.anio_publicacion)).min? with
        | some m => decide (m < 1800)
        | Option.none => false) = b →
      (b = true → ¬ yearMinOk dim) ∧ (b = false → yearMinOk dim) := by
    intro b hb
    rcases hmin : (dim.filterMap (fun d => yearValOf d.anio_publicacion)).min? with _ | m
    · rw [hmin] at hb
      refine ⟨fun ht => ?_, fun _ => ?_⟩
      · rw [ht] at hb; exact absurd hb.symm (by decide)
      · intro m hm; rw [hmin] at hm; exact absurd hm (by simp)
    · rw [hmin] at hb
      refine ⟨fun ht => ?_, fun hf => ?_⟩
      · intro hok
        have hlt : m < 1800 := by
          have hd := hb.trans ht; simpa using hd
        exact absurd (hok m hmin) (by omega)
      · intro m2 hm2
        rw [hmin] at hm2
        injection hm2 with hEq
        subst hEq
        have hd : ¬ (m < 1800) := by
          have hd0 := hb.trans hf; simpa using hd0
        omega
  have hprice : ∀ b : Bool,
      (match (dim.filterMap DimRow.precioAmt).min? with
        | some p => decide (p ≤ 0)
        | Option.none => false) = b →
      (b = true → ¬ priceMinOk dim) ∧ (b = false → priceMinOk dim) := by
    intro b hb
    rcases hmin : (dim.filterMap DimRow.precioAmt).min? with _ | p
    · rw [hmin] at hb
      refine ⟨fun ht => ?_, fun _ => ?_⟩
      · rw [ht] at hb; exact absurd hb.symm (by decide)
      · intro p hp; rw [hmin] at hp; exact absurd hp (by simp)
    · rw [hmin] at hb
      refine ⟨fun ht => ?_, fun hf => ?_⟩
      · intro hok
        have hle : p ≤ 0 := by
          have hd := hb.trans ht; simpa using hd
        exact absurd (hok p hmin) (fun h => absurd (lt_of_lt_of_le h hle) (lt_irrefl 0))
      · intro p2 hp2
        rw [hmin] at hp2
        injection hp2 with hEq
        subst hEq
        have hnle : ¬ (p ≤ 0) := by
          have hd0 := hb.trans hf; simpa using hd0
        exact lt_of_not_le hnle
  unfold assert_quality_constraints
  by_cases h1 : dim.length = 0
  · rw [if_pos h1]
    refine ⟨by simp [dimNonEmptyOk, h1], fun e he => ?_, by simp⟩
    injection he with he1
    exact Or.inl ⟨he1.symm, by simp [dimNonEmptyOk, h1]⟩
  · rw [if_neg h1]
    by_cases h2 : (dim.map DimRow.book_id).Nodup
    · rw [if_neg (not_not_intro h2)]
      by_cases h3 : mkRat ((dim.filter (fun d => cellNotNull d.titulo)).length : Int)
          dim.length < mkRat 4 5
      · rw [if_pos h3]
        refine ⟨by simp [titleFracOk, not_le.mpr h3], fun e he => ?_, by simp⟩
        injection he with he1
        exact Or.inr (Or.inr (Or.inl
          ⟨he1.symm, Nat.pos_of_ne_zero h1, h2, not_le.mpr h3⟩))
      · rw [if_neg h3]
        by_cases h4 : (match (dim.filterMap (fun d => yearValOf d.anio_publicacion)).min?
            with
            | some m => decide (m < 1800)
            | Option.none => false) = true
        · rw [if_pos h4]
          refine ⟨by simp [(hyear true h4).1 rfl], fun e he => ?_, by simp⟩
          injection he with he1
          exact Or.inr (Or.inr (Or.inr (Or.inl
            ⟨he1.symm, Nat.pos_of_ne_zero h1, h2, not_lt.mp h3, (hyear true h4).1 rfl⟩)))
        · rw [if_neg h4]
          by_cases h5 : (match (dim.filterMap DimRow.precioAmt).min? with
              | some p => decide (p ≤ 0)
              | Option.none => false) = true
          · rw [if_pos h5]
            refine ⟨by simp [(hprice true h5).1 rfl], fun e he => ?_, by simp⟩
            injection he with he1
            exact Or.inr (Or.inr (Or.inr (Or.inr
              ⟨he1.symm, Nat.pos_of_ne_zero h1, h2, not_lt.mp h3,
                (hyear false (by simpa using h4)).2 rfl, (hprice true h5).1 rfl⟩)))
          · rw [if_neg h5]
            refine ⟨?_, fun e he => absurd he (by simp), fun _ => h2⟩
            simp only [true_iff]
            exact ⟨Nat.pos_of_ne_zero h1, h2, not_lt.mp h3,
              (hyear false (by simpa using h4)).2 rfl,
              (hprice false (by simpa using h5)).2 rfl⟩
    · rw [if_pos h2]
      refine ⟨by simp [bookIdUniqueOk, h2], fun e he => ?_, by simp⟩
      injection he with he1
      exact Or.inr (Or.inl ⟨he1.symm, Nat.pos_of_ne_zero h1, h2⟩)

/-! ## Claim C8 (confirmed): quality percentages -/

theorem mkRat_eq_div_q (n : Int) (d : Nat) : mkRat n d = (n : ℚ) / (d : ℚ) := by
  rw [Rat.mkRat_eq_divInt, Rat.divInt_eq_div]
  norm_cast

theorem ratMulNat_eq (q : ℚ) (n : Nat) : ratMulNat q n = q * n := by
  unfold ratMulNat
  rw [mkRat_eq_div_q]
  push_cast
  rw [mul_div_right_comm, Rat.num_div_den]

theorem flagMean_bounds (l : List Row) (flag : Row → Bool) :
    0 ≤ flagMean l flag ∧ flagMean l flag ≤ 1 := by
  unfold flagMean
  split
  · next hpos =>
    rw [mkRat_eq_div_q]
    have hle : ((l.filter flag).length : ℚ) ≤ (l.length : ℚ) := by
      exact_mod_cast List.length_filter_le flag l
    have hposq : (0:ℚ) < (l.length : ℚ) := by exact_mod_cast hpos
    constructor
    · positivity
    · rw [div_le_one hposq]
      exact_mod_cast hle
  · exact ⟨le_refl 0, by norm_num⟩

theorem roundHalfEven_bounds (q : ℚ) (N : ℕ) (h0 : 0 ≤ q) (hN : q ≤ (N : ℚ)) :
    0 ≤ roundHalfEven q ∧ roundHalfEven q ≤ (N : ℤ) := by
  unfold roundHalfEven
  have hff : q.floor = ⌊q⌋ := rat_floor_eq q
  have hf0 : 0 ≤ q.floor := by rw [hff]; exact Int.floor_nonneg.mpr h0
  have hfN : q.floor ≤ (N : ℤ) := by
    rw [hff]
    calc ⌊q⌋ ≤ ⌊(N : ℚ)⌋ := Int.floor_le_floor hN
    _ = (N : ℤ) := Int.floor_natCast N
  have hden : (0:ℚ) < (q.den : ℚ) := by exact_mod_cast q.den_pos
  have hnum : (q.num : ℚ) = q * (q.den : ℚ) := by
    calc (q.num : ℚ) = ((q.num : ℚ) / (q.den : ℚ)) * (q.den : ℚ) := by
          rw [div_mul_cancel₀ _ (ne_of_gt hden)]
    _ = q * (q.den : ℚ) := by rw [Rat.num_div_den]
  have hfle : (q.floor : ℚ) ≤ q := by rw [hff]; exact Int.floor_le q
  have hkey : ¬ (2 * (q.num - q.floor * q.den) < (q.den : ℤ)) → q.floor < (N : ℤ) := by
    intro ha
    have h2r : (q.den : ℤ) ≤ 2 * (q.num - q.floor * q.den) := le_of_not_lt ha
    have h2rQ : (q.den : ℚ) ≤ 2 * ((q.num : ℚ) - (q.floor : ℚ) * (q.den : ℚ)) := by
      exact_mod_cast h2r
    have hhalf : (q.floor : ℚ) + 1 / 2 ≤ q := by nlinarith [hnum, hden, h2rQ]
    have hltN : (q.floor : ℚ) < (N : ℚ) := by linarith
    exact_mod_cast hltN
  split_ifs with ha hb hc
  · exact ⟨hf0, hfN⟩
  · have := hkey (by omega)
    omega
  · exact ⟨hf0, hfN⟩
  · have := hkey (by omega)
    omega

theorem flagPct_bounds (l : List Row) (flag : Row → Bool) :
    0 ≤ flagPct l flag ∧ flagPct l flag ≤ 100 := by
  obtain ⟨hm0, hm1⟩ := flagMean_bounds l flag
  have hx : ratMulNat (flagMean l flag) 100 = flagMean l flag * 100 := by
    rw [ratMulNat_eq]; norm_num
  have hy : ratMulNat (ratMulNat (flagMean l flag) 100) 100
      = flagMean l flag * 100 * 100 := by
    rw [hx, ratMulNat_eq]; norm_num
  have hy0 : 0 ≤ ratMulNat (ratMulNat (flagMean l flag) 100) 100 := by
    rw [hy]; positivity
  have hy1 : ratMulNat (ratMulNat (flagMean l flag) 100) 100 ≤ ((10000 : ℕ) : ℚ) := by
    rw [hy]; push_cast; nlinarith
  obtain ⟨hr0, hr1⟩ := roundHalfEven_bounds _ 10000 hy0 hy1
  have hpct : flagPct l flag
      = ((roundHalfEven (ratMulNat (ratMulNat (flagMean l flag) 100) 100) : ℤ) : ℚ) / 100 := by
    unfold flagPct round2
    rw [mkRat_eq_div_q]
    norm_num
  rw [hpct]
  constructor
  · apply div_nonneg _ (by norm_num)
    exact_mod_cast hr0
  · rw [div_le_iff (by norm_num : (0:ℚ) < 100)]
    have h1 : ((roundHalfEven (ratMulNat (ratMulNat (flagMean l flag) 100) 100) : ℤ) : ℚ)
        ≤ (((10000 : ℕ) : ℤ) : ℚ) := by exact_mod_cast hr1
    push_cast at h1 ⊢
    linarith

/-- C8.  Every per-flag percentage of the quality report equals
`round(mean(flag) * 100, 2)` and lies in `[0, 100]`; on an empty dataset
every percentage is 0, produced through the `if total > 0` guard with no
division. -/
theorem spec_C8 : ∀ l : List Row,
    ((compute_quality_metrics l).porcentaje_valid_isbn13
        = round2 (flagMean l Row.valid_isbn13 * 100)
      ∧ (compute_quality_metrics l).porcentaje_valid_fecha_publicacion
        = round2 (flagMean l Row.valid_fecha_publicacion * 100)
      ∧ (compute_quality_metrics l).porcentaje_valid_idioma
        = round2 (flagMean l Row.valid_idioma * 100)
      ∧ (compute_quality_metrics l).porcentaje_valid_moneda
        = round2 (flagMean l Row.valid_moneda * 100))
    ∧ (∀ flag : Row → Bool, 0 ≤ flagPct l flag ∧ flagPct l flag ≤ 100)
    ∧ (l.length = 0 →
        (compute_quality_metrics l).porcentaje_valid_isbn13 = 0
        ∧ (compute_quality_metrics l).porcentaje_valid_fecha_publicacion = 0
        ∧ (compute_quality_metrics l).porcentaje_valid_idioma = 0
        ∧ (compute_quality_metrics l).porcentaje_valid_moneda = 0) := by
  intro l
  refine ⟨?_, flagPct_bounds l, ?_⟩
  · refine ⟨?_, ?_, ?_, ?_⟩ <;>
      · simp only [compute_quality_metrics, flagPct, ratMulNat_eq]
        norm_num
  · intro hl
    have hnil : l = [] := List.length_eq_zero.mp hl
    subst hnil
    have hz : ∀ flag : Row → Bool, flagPct [] flag = 0 := by
      intro flag
      show round2 (ratMulNat (flagMean [] flag) 100) = 0
      have : flagMean [] flag = 0 := rfl
      rw [this]
      decide
    simp only [compute_quality_metrics]
    exact ⟨hz _, hz _, hz _, hz _⟩

/-- C8 witness: `spec_C8` at the empty dataset — all percentages are 0
and within bounds. -/
theorem spec_C8_witness :
    (([] : List Row).length = 0)
    ∧ ((compute_quality_metrics []).porcentaje_valid_isbn13 = 0
        ∧ (compute_quality_metrics []).porcentaje_valid_fecha_publicacion = 0
        ∧ (compute_quality_metrics []).porcentaje_valid_idioma = 0
        ∧ (compute_quality_metrics []).porcentaje_valid_moneda = 0)
    ∧ (0 ≤ flagPct [] Row.valid_isbn13 ∧ flagPct [] Row.valid_isbn13 ≤ 100) :=
  ⟨rfl, (spec_C8 []).2.2 rfl, (spec_C8 []).2.1 Row.valid_isbn13⟩

instance : DecidableEq (Except String Unit) := fun a b =>
  match a, b with
  | .error x, .error y =>
      if h : x = y then isTrue (by rw [h])
      else isFalse (fun hc => h (by injection hc))
  | .ok x, .ok y => isTrue (by cases x; cases y; rfl)
  | .error _, .ok _ => isFalse (fun hc => Except.noConfusion hc)
  | .ok _, .error _ => isFalse (fun hc => Except.noConfusion hc)

/-- A canonical row satisfying all five constraints. -/
def c5WitDim : DimRow :=
  { book_id := "9780306406157"
    titulo := .str "t"
    titulo_normalizado := "t"
    autor_principal := .none
    anio_publicacion := .intY 2000
    idioma := Option.none
    isbn13 := some "9780306406157"
    precioAmt := some 5
    moneda := Option.none
    fuente_ganadora := "google_books"
    ts_ultima_actualizacion := "ts" }

/-- C5 witness: a concrete table passes the validator, and `spec_C5`
yields its `book_id` uniqueness. -/
theorem spec_C5_witness :
    (assert_quality_constraints [c5WitDim] = .ok ())
    ∧ ([c5WitDim].map DimRow.book_id).Nodup :=
  ⟨by decide, (spec_C5 [c5WitDim]).2.2 (by decide)⟩

/-! ## Claim C2 (corrected): fatal runs and written artifacts -/

/-- C2 (amended).  Whenever a run terminates fatally, the canonical
table, the detail table and the schema document are unwritten; and a
missing input dataset aborts before anything is written.  The quality
report, however, is produced and written BEFORE the merge and the
Constraint Validator run, so a validator failure (including the
empty-canonical-table check) leaves `quality_metrics.json` already
written — see the counterexample. -/
theorem spec_C2 : ∀ (h : String → String) (g : Option (List RawGoodreads))
    (b : Option (List RawGoogle)) (ts : String),
    ((mainRun h g b ts).fatal.isSome →
      Artifact.dim_book_parquet ∉ (mainRun h g b ts).written
      ∧ Artifact.book_source_detail_parquet ∉ (mainRun h g b ts).written
      ∧ Artifact.schema_md ∉ (mainRun h g b ts).written)
    ∧ ((g = Option.none ∨ b = Option.none) → (mainRun h g b ts).written = []) := by
  intro h g b ts
  cases g with
  | none =>
    exact ⟨fun _ => ⟨by simp [mainRun], by simp [mainRun], by simp [mainRun]⟩, fun _ => rfl⟩
  | some gl =>
    cases b with
    | none =>
      exact ⟨fun _ => ⟨by simp [mainRun], by simp [mainRun], by simp [mainRun]⟩, fun _ => rfl⟩
    | some bl =>
      constructor
      · intro hf
        cases hres : assert_quality_constraints (build_dim_book h ts
            (normalizeRows (gl.map loadGoodreads ++ bl.map loadGooglebooks))) with
        | error e => simp [mainRun, hres]
        | ok u => simp [mainRun, hres] at hf
      · intro hgb
        rcases hgb with h1 | h1 <;> exact absurd h1 (by simp)

/-- C2 witness: `spec_C2` at a run with both inputs missing — the run is
fatal and nothing at all is written. -/
theorem spec_C2_witness :
    ((mainRun (fun _ => "h") Option.none Option.none "ts").fatal.isSome = true)
    ∧ (Artifact.dim_book_parquet
        ∉ (mainRun (fun _ => "h") Option.none Option.none "ts").written
      ∧ Artifact.book_source_detail_parquet
        ∉ (mainRun (fun _ => "h") Option.none Option.none "ts").written
      ∧ Artifact.schema_md
        ∉ (mainRun (fun _ => "h") Option.none Option.none "ts").written)
    ∧ (mainRun (fun _ => "h") Option.none Option.none "ts").written = [] :=
  ⟨by decide,
    (spec_C2 (fun _ => "h") Option.none Option.none "ts").1 (by decide),
    (spec_C2 (fun _ => "h") Option.none Option.none "ts").2 (Or.inl rfl)⟩

/-- A Google Books record with a non-positive price, which trips check 5
of the Constraint Validator. -/
def c2CexRaw : RawGoogle :=
  { title_gb := .str "x"
    authors_gb := .none
    published_date_raw := .none
    language_raw := .none
    isbn13_gb := .none
    price_amount := some 0
    price_currency := .none }

/-- C2 counterexample: on this input both source files exist, the
Constraint Validator aborts the run (price 0), yet the quality report HAS
been written — refuting the claim that a fatally terminated run leaves
all four artifacts unwritten. -/
theorem spec_C2_cex :
    (mainRun (fun _ => "h") (some []) (some [c2CexRaw]) "ts").fatal.isSome = true
    ∧ Artifact.quality_metrics_json
        ∈ (mainRun (fun _ => "h") (some []) (some [c2CexRaw]) "ts").written := by
  exact ⟨by decide, by decide⟩

/-! ## Claim C9 (confirmed): determinism up to timestamps -/

theorem build_dim_book_ids_ts_indep (h : String → String) (t1 t2 : String) (l : List Row) :
    (build_dim_book h t1 l).map DimRow.book_id
      = (build_dim_book h t2 l).map DimRow.book_id := by
  unfold build_dim_book
  rw [List.map_map, List.map_map]
  exact List.map_congr_left fun w _ => rfl

theorem build_dim_book_eraseTs_ts_indep (h : String → String) (t1 t2 : String)
    (l : List Row) :
    (build_dim_book h t1 l).map dimEraseTs = (build_dim_book h t2 l).map dimEraseTs := by
  unfold build_dim_book
  rw [List.map_map, List.map_map]
  exact List.map_congr_left fun w _ => rfl

theorem assert_ts_indep (h : String → String) (t1 t2 : String) (l : List Row) :
    assert_quality_constraints (build_dim_book h t1 l)
      = assert_quality_constraints (build_dim_book h t2 l) := by
  unfold assert_quality_constraints build_dim_book
  rw [List.length_map, List.length_map, List.map_map, List.map_map,
    List.filter_map, List.filter_map, List.length_map, List.length_map,
    List.filterMap_map, List.filterMap_map, List.filterMap_map, List.filterMap_map]
  rfl

/-- C9.  Two runs on identical inputs produce identical quality reports,
identical fatality and artifact behaviour, identical canonical `book_id`
lists, and canonical rows that are identical once the timestamp column is
blanked — the run timestamp is the only thing that can differ. -/
theorem spec_C9 : ∀ (h : String → String) (g : Option (List RawGoodreads))
    (b : Option (List RawGoogle)) (t1 t2 : String),
    (mainRun h g b t1).metricsOut = (mainRun h g b t2).metricsOut
    ∧ (mainRun h g b t1).fatal = (mainRun h g b t2).fatal
    ∧ (mainRun h g b t1).written = (mainRun h g b t2).written
    ∧ ((mainRun h g b t1).dimOut.map (List.map DimRow.book_id))
        = ((mainRun h g b t2).dimOut.map (List.map DimRow.book_id))
    ∧ ((mainRun h g b t1).dimOut.map (List.map dimEraseTs))
        = ((mainRun h g b t2).dimOut.map (List.map dimEraseTs)) := by
  intro h g b t1 t2
  cases g with
  | none => exact ⟨rfl, rfl, rfl, rfl, rfl⟩
  | some gl =>
    cases b with
    | none => exact ⟨rfl, rfl, rfl, rfl, rfl⟩
    | some bl =>
      have hassert := assert_ts_indep h t1 t2
        (normalizeRows (gl.map loadGoodreads ++ bl.map loadGooglebooks))
      simp only [mainRun]
      cases hres : assert_quality_constraints (build_dim_book h t1
          (normalizeRows (gl.map loadGoodreads ++ bl.map loadGooglebooks))) with
      | error e =>
        rw [hres] at hassert
        rw [← hassert]
        exact ⟨rfl, rfl, rfl, rfl, rfl⟩
      | ok u =>
        rw [hres] at hassert
        rw [← hassert]
        refine ⟨rfl, rfl, rfl, ?_, ?_⟩
        · simp only [Option.map_some']
          exact congrArg some (build_dim_book_ids_ts_indep h t1 t2 _)
        · simp only [Option.map_some']
          exact congrArg some (build_dim_book_eraseTs_ts_indep h t1 t2 _)

/-! ## Claim C1 (confirmed): Policy A priority take-all -/

theorem dropDupFirst_subset : ∀ (l : List Row) (seen : List String) (x : Row),
    x ∈ dropDupFirst l seen → x ∈ l := by
  intro l
  induction l with
  | nil => intro seen x hx; cases hx
  | cons r rs ih =>
    intro seen x hx
    unfold dropDupFirst at hx
    by_cases hr : r.book_id_candidato ∈ seen
    · rw [if_pos hr] at hx
      exact List.mem_cons_of_mem _ (ih seen x hx)
    · rw [if_neg hr] at hx
      rcases List.mem_cons.mp hx with rfl | hx'
      · exact List.mem_cons_self _ _
      · exact List.mem_cons_of_mem _ (ih _ x hx')

theorem dropDupFirst_notin_seen : ∀ (l : List Row) (seen : List String) (x : Row),
    x ∈ dropDupFirst l seen → x.book_id_candidato ∉ seen := by
  intro l
  induction l with
  | nil => intro seen x hx; cases hx
  | cons r rs ih =>
    intro seen x hx
    unfold dropDupFirst at hx
    by_cases hr : r.book_id_candidato ∈ seen
    · rw [if_pos hr] at hx
      exact ih seen x hx
    · rw [if_neg hr] at hx
      rcases List.mem_cons.mp hx with rfl | hx'
      · exact hr
      · have hn := ih _ x hx'
        intro hc
        exact hn (List.mem_cons_of_mem _ hc)

theorem dropDupFirst_first : ∀ (l : List Row) (seen : List String) (x : Row),
    x ∈ dropDupFirst l seen →
    ∃ l1 l2, l = l1 ++ x :: l2
      ∧ ∀ y ∈ l1, y.book_id_candidato ≠ x.book_id_candidato := by
  intro l
  induction l with
  | nil => intro seen x hx; cases hx
  | cons r rs ih =>
    intro seen x hx
    unfold dropDupFirst at hx
    by_cases hr : r.book_id_candidato ∈ seen
    · rw [if_pos hr] at hx
      obtain ⟨l1, l2, heq, hne⟩ := ih seen x hx
      have hxs := dropDupFirst_notin_seen rs seen x hx
      refine ⟨r :: l1, l2, by rw [heq]; rfl, ?_⟩
      intro y hy
      rcases List.mem_cons.mp hy with rfl | hy'
      · intro hc; rw [hc] at hr; exact hxs hr
      · exact hne y hy'
    · rw [if_neg hr] at hx
      rcases List.mem_cons.mp hx with rfl | hx'
      · exact ⟨[], rs, rfl, by intro y hy; cases hy⟩
      · obtain ⟨l1, l2, heq, hne⟩ := ih _ x hx'
        have hxs := dropDupFirst_notin_seen rs _ x hx'
        refine ⟨r :: l1, l2, by rw [heq]; rfl, ?_⟩
        intro y hy
        rcases List.mem_cons.mp hy with rfl | hy'
        · intro hc
          exact hxs (hc ▸ List.mem_cons_self _ _)
        · exact hne y hy'

theorem dropDupFirst_cover : ∀ (l : List Row) (seen : List String) (r : Row),
    r ∈ l → r.book_id_candidato ∉ seen →
    ∃ w ∈ dropDupFirst l seen, w.book_id_candidato = r.book_id_candidato := by
  intro l
  induction l with
  | nil => intro seen r hr; cases hr
  | cons a rs ih =>
    intro seen r hr hsn
    unfold dropDupFirst
    rcases List.mem_cons.mp hr with rfl | hr'
    · rw [if_neg hsn]
      exact ⟨r, List.mem_cons_self _ _, rfl⟩
    · by_cases ha : a.book_id_candidato ∈ seen
      · rw [if_pos ha]
        exact ih seen r hr' hsn
      · rw [if_neg ha]
        by_cases hkey : r.book_id_candidato = a.book_id_candidato
        · exact ⟨a, List.mem_cons_self _ _, hkey.symm⟩
        · have hsn2 : r.book_id_candidato ∉ a.book_id_candidato :: seen := by
            intro hc
            rcases List.mem_cons.mp hc with hc1 | hc2
            · exact hkey hc1
            · exact hsn hc2
          obtain ⟨w, hw, hwk⟩ := ih _ r hr' hsn2
          exact ⟨w, List.mem_cons_of_mem _ hw, hwk⟩

theorem dropDupFirst_keys_nodup : ∀ (l : List Row) (seen : List String),
    ((dropDupFirst l seen).map Row.book_id_candidato).Nodup := by
  intro l
  induction l with
  | nil => intro seen; exact List.nodup_nil
  | cons r rs ih =>
    intro seen
    unfold dropDupFirst
    by_cases hr : r.book_id_candidato ∈ seen
    · rw [if_pos hr]; exact ih seen
    · rw [if_neg hr]
      rw [List.map_cons, List.nodup_cons]
      refine ⟨?_, ih _⟩
      intro hc
      obtain ⟨x, hx, hxk⟩ := List.mem_map.mp hc
      have := dropDupFirst_notin_seen rs _ x hx
      exact this (hxk ▸ List.mem_cons_self _ _)

theorem sourcePriority_le_two (s : String) : sourcePriority s ≤ 2 := by
  unfold sourcePriority
  split_ifs <;> omega

theorem sourcePriority_eq_two {s : String} (h : sourcePriority s = 2) :
    s = "google_books" := by
  by_cases hg : s = "google_books"
  · exact hg
  · exfalso
    unfold sourcePriority at h
    rw [if_neg hg] at h
    split_ifs at h <;> omega

theorem dfWinner_max_priority (l : List Row) (w : Row) (hw : w ∈ dfWinner l)
    (r : Row) (hr : r ∈ l) (hk : r.book_id_candidato = w.book_id_candidato) :
    sourcePriority r.source ≤ sourcePriority w.source := by
  unfold dfWinner at hw
  obtain ⟨l1, l2, heq, hfirst⟩ := dropDupFirst_first _ _ _ hw
  have hsort : List.Sorted RowLE (List.insertionSort RowLE l) :=
    List.sorted_insertionSort RowLE l
  have hrs : r ∈ List.insertionSort RowLE l := by
    rw [List.mem_insertionSort]; exact hr
  rw [heq] at hrs hsort
  rcases List.mem_append.mp hrs with h1 | h2
  · exact absurd hk (hfirst r h1)
  · rcases List.mem_cons.mp h2 with rfl | h2'
    · exact le_refl _
    · have hsub : List.Sorted RowLE (w :: l2) :=
        (hsort : List.Pairwise RowLE _).sublist (List.sublist_append_right l1 (w :: l2))
      have hle : RowLE w r := List.rel_of_sorted_cons hsub r h2'
      rcases hle with hlt | ⟨_, hp⟩
      · exact absurd (hk ▸ hlt) (by simp [charListLt_irrefl])
      · exact hp

/-- C1.  Under Policy A, every row of the canonical table is built
verbatim (`mkDim`) from a single winning input row — no field mixing;
that winner's source priority is maximal within its candidate-key group
(so when google_books, priority 2, is present in the group, the winner's
source — and the row's `fuente_ganadora` — is google_books, for EVERY
input order, since the input list is universally quantified); the
surviving keys are pairwise distinct; and every input key is represented
by exactly one winner. -/
theorem spec_C1 : ∀ (l : List Row) (h : String → String) (ts : String),
    (∀ d ∈ build_dim_book h ts l, ∃ w,
        w ∈ l ∧ w ∈ dfWinner l ∧ d = mkDim h ts w
        ∧ d.fuente_ganadora = w.source
        ∧ (∀ r ∈ l, r.book_id_candidato = w.book_id_candidato →
            sourcePriority r.source ≤ sourcePriority w.source)
        ∧ ((∃ r ∈ l, r.book_id_candidato = w.book_id_candidato
              ∧ r.source = "google_books") → w.source = "google_books"))
    ∧ ((dfWinner l).map Row.book_id_candidato).Nodup
    ∧ (∀ r ∈ l, ∃ w ∈ dfWinner l, w.book_id_candidato = r.book_id_candidato) := by
  intro l h ts
  refine ⟨?_, dropDupFirst_keys_nodup _ [], ?_⟩
  · intro d hd
    obtain ⟨w, hw, hdw⟩ := List.mem_map.mp hd
    have hwl : w ∈ l := by
      have := dropDupFirst_subset _ _ _ hw
      rwa [List.mem_insertionSort] at this
    have hmax : ∀ r ∈ l, r.book_id_candidato = w.book_id_candidato →
        sourcePriority r.source ≤ sourcePriority w.source :=
      fun r hr hk => dfWinner_max_priority l w hw r hr hk
    refine ⟨w, hwl, hw, hdw.symm, by rw [← hdw]; rfl, hmax, ?_⟩
    rintro ⟨r, hr, hk, hgoogle⟩
    have h2 : sourcePriority r.source = 2 := by rw [hgoogle]; rfl
    have hge : 2 ≤ sourcePriority w.source := h2 ▸ hmax r hr hk
    have hle : sourcePriority w.source ≤ 2 := sourcePriority_le_two _
    exact sourcePriority_eq_two (by omega)
  · intro r hr
    have hrs : r ∈ List.insertionSort RowLE l := by
      rw [List.mem_insertionSort]; exact hr
    exact dropDupFirst_cover _ [] r hrs (by simp)

/-- The Goodreads half of the spec's end-to-end scenario. -/
def c1WitGr : RawGoodreads :=
  { title := .str "Deep Work"
    authors := .str "Cal Newport"
    publication_info_raw := .none
    isbn13 := .str "9781455586691" }

/-- The Google Books half of the spec's end-to-end scenario. -/
def c1WitGb : RawGoogle :=
  { title_gb := .str "Deep Work"
    authors_gb := .str "Cal Newport"
    published_date_raw := .str "2016-01-05"
    language_raw := .str "en"
    isbn13_gb := .str "9781455586691"
    price_amount := some 12
    price_currency := .str "USD" }

/-- A stand-in 12-hex-character digest function for the witness run. -/
def c1WitH : String → String := fun _ => "abcdef123456"

/-- The normalized union of the scenario, Goodreads row first. -/
def c1WitRows : List Row :=
  normalizeRows (List.map loadGoodreads [c1WitGr] ++ List.map loadGooglebooks [c1WitGb])

/-- The expected winner: the normalized Google Books row. -/
def c1WitWinner : Row := normalizeOne true (loadGooglebooks c1WitGb)

/-- C1 witness: `spec_C1` on the two-source scenario with the Goodreads
row FIRST in the input — the canonical row is built verbatim from the
google_books record (priority 2 beats 1), its `fuente_ganadora` is
google_books, and its `book_id` is the shared ISBN. -/
theorem spec_C1_witness :
    (mkDim c1WitH "ts" c1WitWinner ∈ build_dim_book c1WitH "ts" c1WitRows)
    ∧ (∃ w, w ∈ c1WitRows ∧ w ∈ dfWinner c1WitRows
        ∧ mkDim c1WitH "ts" c1WitWinner = mkDim c1WitH "ts" w
        ∧ (mkDim c1WitH "ts" c1WitWinner).fuente_ganadora = w.source
        ∧ (∀ r ∈ c1WitRows, r.book_id_candidato = w.book_id_candidato →
            sourcePriority r.source ≤ sourcePriority w.source)
        ∧ ((∃ r ∈ c1WitRows, r.book_id_candidato = w.book_id_candidato
              ∧ r.source = "google_books") → w.source = "google_books"))
    ∧ (mkDim c1WitH "ts" c1WitWinner).fuente_ganadora = "google_books"
    ∧ (mkDim c1WitH "ts" c1WitWinner).book_id = "9781455586691" :=
  ⟨by decide, (spec_C1 c1WitRows c1WitH "ts").1 _ (by decide), by decide, by decide⟩
